import Mathlib

/-!
A verification development for `stream.js` of the blocktogether repository:
a supervisor for long-lived Twitter user streams that classifies inbound
events, auto-blocks mentioning accounts that meet freshness/popularity
thresholds, and debounces block/unblock echoes into reconciliation calls.

The JavaScript is shallowly embedded: plain objects used as maps
(`streams`, `updateBlocksTimers`, the result of `_.indexBy`) become
association lists with JavaScript assignment/delete semantics; callbacks
become explicit result values (lists of effects, scheduled timers);
timestamps are exact rationals (milliseconds since the epoch).
-/

namespace Blocktogether

/-! ## JavaScript object-as-map primitives

`obj[k] = v` replaces the value of an existing key in place (keeping its
position) or appends a fresh key; `delete obj[k]` removes the key;
`obj[k]` reads the value.  These model the mutable objects `streams` and
`updateBlocksTimers` in `stream.js`, and the object built by `_.indexBy`. -/

/-- `obj[k] = v` on a JavaScript object modelled as an association list. -/
def jsSet {α : Type} (m : List (String × α)) (k : String) (v : α) : List (String × α) :=
  if m.any (fun p => p.1 = k) then
    m.map (fun p => if p.1 = k then (k, v) else p)
  else
    m ++ [(k, v)]

/-- `delete obj[k]` on a JavaScript object modelled as an association list. -/
def jsDelete {α : Type} (m : List (String × α)) (k : String) : List (String × α) :=
  m.filter (fun p => p.1 ≠ k)

/-- `obj[k]` on a JavaScript object modelled as an association list
(`none` plays the role of `undefined`). -/
def jsGet {α : Type} (m : List (String × α)) (k : String) : Option α :=
  (m.find? (fun p => p.1 = k)).map (fun p => p.2)

/-! ## Data model -/

/-- A row of the `BtUser` table as used by `stream.js`: the uid, the two
auto-block policy flags and the deactivation marker
(`src/stream.js` lines 54-70, 263-288). -/
structure BtUser where
  uid : String
  block_new_accounts : Bool
  block_low_followers : Bool
  deactivatedAt : Option Int
  deriving DecidableEq, Repr

/-- A Twitter API User object as consumed by `checkReplyAndBlock` and
`checkPastMentions`: `created_at` is the parsed creation timestamp in
milliseconds since the epoch (`Date.parse(mentioningUser.created_at)`),
`none` when the field is absent/falsy. -/
structure TwitterUser where
  id_str : String
  screen_name : String
  created_at : Option Rat
  followers_count : Int
  deriving DecidableEq, Repr

/-- The cause tag attached to an enqueued block action
(`Action.NEW_ACCOUNT` / `Action.LOW_FOLLOWERS` in `stream.js`). -/
inductive Cause where
  | NEW_ACCOUNT
  | LOW_FOLLOWERS
  deriving DecidableEq, Repr

/-- Threshold: block mentioning accounts younger than 7 days
(`var MIN_AGE = 7` in `stream.js`). -/
def MIN_AGE : Rat := 7

/-- Threshold: block mentioning accounts with fewer than 15 followers
(`var MIN_FOLLOWERS = 15` in `stream.js`). -/
def MIN_FOLLOWERS : Int := 15

/-- Observable outcome of one `checkReplyAndBlock` invocation:
whether `recipientBtUser.reload()` was issued, and the list of
`(sinkUserId, cause)` pairs passed to `enqueueBlock`. -/
structure CheckResult where
  reloadAttempted : Bool
  enqueued : List (String × Cause)
  deriving DecidableEq, Repr

/-- Embedding of `checkReplyAndBlock` (`src/stream.js` lines 263-288).

`now` is `new Date()` in ms; the local `ageInDays` of the source,
`(now - Date.parse(created_at)) / 86400 / 1000`, is inlined at its three
use sites.  Sequelize's `reload()` refreshes the
`recipientBtUser` instance in place and fires `.success` with it, so the
flags read after the reload are the reloaded ones; `reloadResult` is
`some` of the reloaded record on success and `none` on failure, in which
case the `.success` continuation never runs and nothing is enqueued. -/
def checkReplyAndBlock (now : Rat) (recipientBtUser : BtUser)
    (mentioningUser : Option TwitterUser) (reloadResult : Option BtUser) : CheckResult :=
  match mentioningUser with
  | none => ⟨false, []⟩
  | some m =>
    match m.created_at with
    | none => ⟨false, []⟩
    | some created =>
      if m.id_str = recipientBtUser.uid then ⟨false, []⟩
      else
        if (now - created) / 86400 / 1000 < MIN_AGE ∨ m.followers_count < MIN_FOLLOWERS then
          match reloadResult with
          | none => ⟨true, []⟩
          | some user =>
            if (now - created) / 86400 / 1000 < MIN_AGE ∧ user.block_new_accounts then
              ⟨true, [(m.id_str, Cause.NEW_ACCOUNT)]⟩
            else if m.followers_count < MIN_FOLLOWERS ∧ user.block_low_followers then
              ⟨true, [(m.id_str, Cause.LOW_FOLLOWERS)]⟩
            else ⟨true, []⟩
        else ⟨false, []⟩

/-- The `disconnect` object carried by a streaming lifecycle message
(codes 6, 13, 14 mean revoked, deleted, suspended). -/
structure Disconnect where
  code : Int
  deriving DecidableEq, Repr

/-- The `warning` object carried by a streaming warning message. -/
structure StreamWarning where
  code : String
  message : String
  deriving DecidableEq, Repr

/-- One parsed message from the user stream, with the fields `dataCallback`
inspects.  `retweeted_status` records JavaScript truthiness of the field
(present and non-null); `user` and `target` are embedded User objects. -/
structure StreamData where
  disconnect : Option Disconnect
  warning : Option StreamWarning
  event : Option String
  target : Option TwitterUser
  text : Option String
  retweeted_status : Bool
  user : Option TwitterUser
  deriving DecidableEq, Repr

/-- JavaScript truthiness of an optional string field: absent (`undefined`)
and the empty string are falsy. -/
def strTruthy : Option String → Bool
  | none => false
  | some s => s ≠ ""

/-- The externally observable calls `dataCallback` can make:
`recipientBtUser.verifyCredentials()`, `updateUsers.storeUser(target)`,
`handleBlockEvent(...)` (the reconciliation debouncer) and
`checkReplyAndBlock(...)` (the block decision engine). -/
inductive Effect where
  | verifyCredentials
  | storeUser (target : TwitterUser)
  | notifyBlockDebouncer
  | evaluateMention (mentioningUser : TwitterUser)
  deriving DecidableEq, Repr

/-- Embedding of the classifier `dataCallback` (`src/stream.js` lines
197-248), as the list of external calls made for one payload.  Branch
order follows the source: falsy data, `disconnect`, `warning`, `event`,
then the mention branch guarded by
`data.text && !data.retweeted_status && data.user`. -/
def dataCallback (data : Option StreamData) : List Effect :=
  match data with
  | none => []
  | some d =>
    match d.disconnect with
    | some disc =>
      if disc.code = 6 ∨ disc.code = 13 ∨ disc.code = 14 then
        [Effect.verifyCredentials]
      else []
    | none =>
      match d.warning with
      | some _ => []
      | none =>
        if strTruthy d.event then
          (match d.target with
            | some t => [Effect.storeUser t]
            | none => []) ++
          (if d.event = some "unblock" ∨ d.event = some "block" then
            [Effect.notifyBlockDebouncer]
          else [])
        else
          if strTruthy d.text = true ∧ d.retweeted_status = false then
            match d.user with
            | some u => [Effect.evaluateMention u]
            | none => []
          else []

/-- Block candidates produced from one streaming payload: the classifier
composed with the decision engine on its mention route. -/
def blockCandidatesOfPayload (now : Rat) (recipientBtUser : BtUser)
    (data : Option StreamData) (reloadResult : Option BtUser) : List (String × Cause) :=
  (dataCallback data).flatMap (fun e =>
    match e with
    | Effect.evaluateMention u =>
      (checkReplyAndBlock now recipientBtUser (some u) reloadResult).enqueued
    | _ => [])

/-- A status (tweet) from the mentions timeline; `checkPastMentions` only
reads the embedded `user` object. -/
structure Status where
  user : TwitterUser
  deriving DecidableEq, Repr

/-- Embedding of `_.indexBy(users, 'id_str')` (lodash) from
`checkPastMentions` (`src/stream.js` lines 144-146): builds an object
keyed by `id_str`; a later element with an already-present key overwrites
the stored value in place, so each key maps to the last element that
produced it. -/
def indexBy (users : List TwitterUser) : List (String × TwitterUser) :=
  users.foldl (fun acc u => jsSet acc u.id_str u) []

/-- Embedding of the dedup step of `checkPastMentions` (`src/stream.js`
lines 140-149): the `(id_str, record)` pairs whose records are handed one
by one to `checkReplyAndBlock`.  JavaScript object-key enumeration order
is abstracted as insertion order; the properties proved below are
order-independent. -/
def checkPastMentions (mentions : List Status) : List (String × TwitterUser) :=
  indexBy (mentions.map Status.user)

/-- Cooldown before a rate-limited account's registry entry is removed:
`15 * 60 * 1000` ms in `endCallback`. -/
def RATE_LIMIT_COOLDOWN_MS : Nat := 15 * 60 * 1000

/-- Observable outcome of one `endCallback` invocation: the updated
`streams` object, the deferred removals scheduled by `setTimeout`
(uid, the captured `streams[uid]` value, and the delay in ms), and whether
`user.verifyCredentials()` was invoked (statuses 401/403). -/
structure EndResult where
  streams : List (String × Nat)
  scheduled : List (String × Option Nat × Nat)
  verifiedCredentials : Bool
  deriving DecidableEq, Repr

/-- Embedding of `endCallback` (`src/stream.js` lines 160-187).  Request
objects stored in `streams` are modelled as serial numbers; reference
identity (`===`) becomes equality of serials. -/
def endCallback (streams : List (String × Nat)) (uid : String)
    (statusCode : Nat) : EndResult :=
  if statusCode = 420 then
    ⟨streams, [(uid, jsGet streams uid, RATE_LIMIT_COOLDOWN_MS)],
      statusCode == 401 || statusCode == 403⟩
  else
    ⟨jsDelete streams uid, [], statusCode == 401 || statusCode == 403⟩

/-- The deferred removal scheduled by the 420 branch of `endCallback`
(`src/stream.js` lines 174-183): at fire time the entry is deleted only if
the registry still holds the very session captured at scheduling time;
otherwise it logs the inconsistency and leaves the registry unchanged. -/
def cooldownRemoval (streams : List (String × Nat)) (uid : String)
    (captured : Option Nat) : List (String × Nat) :=
  if jsGet streams uid = captured then jsDelete streams uid else streams

/-- Joint state of the two per-account registries of `stream.js`:
`streams` (uid → request object, modelled as a serial number) and
`updateBlocksTimers` (uid → timer id). -/
structure SysState where
  streams : List (String × Nat)
  timers : List (String × Nat)
  deriving DecidableEq, Repr

/-- The initial state: `streams` starts with the dummy entry
(`src/stream.js` lines 20-22) and no debounce timers are pending. -/
def initialState : SysState := ⟨[("dummy", 0)], []⟩

/-- One step of the system, under any interleaving of the asynchronous
callbacks that mutate the registries: `startStream` registering a new
request (`streams[user.uid] = req`), a non-420 `endCallback` deleting the
entry, a scheduled cooldown removal firing, `handleBlockEvent` replacing
the account's debounce timer, and a debounce timer firing (after which the
stale id stays only until the next `handleBlockEvent`; we model the fired
timer as removed). -/
inductive Step : SysState → SysState → Prop
  | startStream (s : SysState) (uid : String) (sid : Nat) :
      Step s ⟨jsSet s.streams uid sid, s.timers⟩
  | endStream (s : SysState) (uid : String) :
      Step s ⟨jsDelete s.streams uid, s.timers⟩
  | cooldownFire (s : SysState) (uid : String) (captured : Option Nat) :
      Step s ⟨cooldownRemoval s.streams uid captured, s.timers⟩
  | blockNotify (s : SysState) (uid : String) (tid : Nat) :
      Step s ⟨s.streams, jsSet s.timers uid tid⟩
  | debounceFire (s : SysState) (uid : String) :
      Step s ⟨s.streams, jsDelete s.timers uid⟩

/-- States reachable from `initialState` by any interleaving of steps. -/
inductive Reachable : SysState → Prop
  | init : Reachable initialState
  | step {s t : SysState} : Reachable s → Step s t → Reachable t

/-- The debounce quiet window of `handleBlockEvent`: 2000 ms. -/
def DEBOUNCE_MS : Nat := 2000

/-- Timed semantics of one account's slot in `updateBlocksTimers`
(`handleBlockEvent`, `src/stream.js` lines 309-325), processing the sorted
arrival times of block/unblock notifications.  The accumulator is the
deadline of the account's pending timer, if any.  A pending timer whose
deadline has passed fires — calling `remoteUpdateBlocks` — before the next
notification is handled; each notification clears any still-pending timer
(`clearTimeout`) and schedules a fresh one at `t + 2000`; a timer still
pending after the last notification fires at its deadline. -/
def debounceGo : List Nat → Option Nat → List Nat
  | [], none => []
  | [], some d => [d]
  | t :: rest, none => debounceGo rest (some (t + DEBOUNCE_MS))
  | t :: rest, some d =>
    if d ≤ t then d :: debounceGo rest (some (t + DEBOUNCE_MS))
    else debounceGo rest (some (t + DEBOUNCE_MS))

/-- Fire times of `remoteUpdateBlocks` for one account, given the sorted
times of its block/unblock notifications. -/
def debounceRun (ts : List Nat) : List Nat :=
  debounceGo ts none

/-- Batch size of the candidate sampler: `limit: 10` in `startStreams`. -/
def SAMPLER_BATCH : Nat := 10

/-- Tick interval of the sampler: `setInterval(startStreams, 1000)`. -/
def SAMPLER_TICK_MS : Nat := 1000

/-- The WHERE clause of the `findAll` query in `startStreams`
(`src/stream.js` lines 54-70): uid not among the currently streaming ids,
not deactivated, and at least one auto-block option enabled. -/
def eligibleForStream (streamingIds : List String) (u : BtUser) : Bool :=
  decide (u.uid ∉ streamingIds) && u.deactivatedAt.isNone
    && (u.block_new_accounts || u.block_low_followers)

/-- Embedding of one `startStreams` tick (`src/stream.js` lines 43-80):
the DB serves the user table in a fresh random order (`order: 'RAND()'`);
the query keeps the eligible rows and at most 10 of them
(`limit: 10`), and each returned user is handed to `startStream`
(`users.forEach(startStream)`). -/
def startStreamsTick (streams : List (String × Nat))
    (shuffledUsers : List BtUser) : List BtUser :=
  (shuffledUsers.filter (eligibleForStream (streams.map Prod.fst))).take SAMPLER_BATCH

/-! ## Association-list lemmas -/

lemma keys_jsSet {α : Type} (m : List (String × α)) (k : String) (v : α) :
    (jsSet m k v).map Prod.fst
      = if m.any (fun p => p.1 = k) then m.map Prod.fst else m.map Prod.fst ++ [k] := by
  unfold jsSet
  split
  · rw [List.map_map]
    exact List.map_congr_left (fun p _ => by by_cases h : p.1 = k <;> simp [h])
  · simp

lemma keys_nodup_jsSet {α : Type} (m : List (String × α)) (k : String) (v : α)
    (h : (m.map Prod.fst).Nodup) : ((jsSet m k v).map Prod.fst).Nodup := by
  rw [keys_jsSet]
  split
  · exact h
  · next hany =>
    rw [List.nodup_append]
    refine ⟨h, List.nodup_singleton k, ?_⟩
    intro a ha hk
    rw [List.mem_singleton] at hk
    subst hk
    obtain ⟨p, hp, hpa⟩ := List.mem_map.mp ha
    simp only [List.any_eq_true, decide_eq_true_eq] at hany
    exact hany ⟨p, hp, hpa⟩

lemma mem_keys_jsSet {α : Type} (m : List (String × α)) (k a : String) (v : α) :
    a ∈ (jsSet m k v).map Prod.fst ↔ a = k ∨ a ∈ m.map Prod.fst := by
  rw [keys_jsSet]
  split
  · next hany =>
    constructor
    · exact Or.inr
    · rintro (rfl | h)
      · simp only [List.any_eq_true, decide_eq_true_eq] at hany
        obtain ⟨p, hp, hpa⟩ := hany
        exact List.mem_map.mpr ⟨p, hp, hpa⟩
      · exact h
  · simp [or_comm]

lemma keys_nodup_jsDelete {α : Type} (m : List (String × α)) (k : String)
    (h : (m.map Prod.fst).Nodup) : ((jsDelete m k).map Prod.fst).Nodup :=
  h.sublist ((List.filter_sublist m).map Prod.fst)

lemma jsGet_jsDelete_self {α : Type} (m : List (String × α)) (k : String) :
    jsGet (jsDelete m k) k = none := by
  unfold jsGet jsDelete
  rw [Option.map_eq_none']
  rw [List.find?_eq_none]
  intro p hp
  have h2 := (List.mem_filter.mp hp).2
  simp only [decide_eq_true_eq] at h2 ⊢
  exact h2

lemma find?_jsSet_hit {α : Type} (m : List (String × α)) (k : String) (v : α)
    (h : m.any (fun p => p.1 = k) = true) :
    (m.map (fun p => if p.1 = k then (k, v) else p)).find? (fun p => p.1 = k)
      = some (k, v) := by
  induction m with
  | nil => simp at h
  | cons p rest ih =>
    by_cases hp : p.1 = k
    · rw [List.map_cons, if_pos hp, List.find?_cons_of_pos _ (by simp)]
    · rw [List.map_cons, if_neg hp, List.find?_cons_of_neg _ (by simpa using hp)]
      apply ih
      simpa [hp] using h

lemma find?_jsSet_miss {α : Type} (m : List (String × α)) (k a : String) (v : α)
    (hak : a ≠ k) :
    (m.map (fun p => if p.1 = k then (k, v) else p)).find? (fun p => p.1 = a)
      = m.find? (fun p => p.1 = a) := by
  induction m with
  | nil => rfl
  | cons p rest ih =>
    by_cases hp : p.1 = k
    · rw [List.map_cons, if_pos hp,
        List.find?_cons_of_neg _ (by simpa using fun h => hak h.symm),
        List.find?_cons_of_neg _ (by simp [hp]; exact fun h => hak h.symm)]
      exact ih
    · rw [List.map_cons, if_neg hp]
      by_cases hpa : p.1 = a
      · rw [List.find?_cons_of_pos _ (by simpa using hpa),
          List.find?_cons_of_pos _ (by simpa using hpa)]
      · rw [List.find?_cons_of_neg _ (by simpa using hpa),
          List.find?_cons_of_neg _ (by simpa using hpa)]
        exact ih

lemma jsGet_jsSet {α : Type} (m : List (String × α)) (k a : String) (v : α) :
    jsGet (jsSet m k v) a = if a = k then some v else jsGet m a := by
  unfold jsGet jsSet
  by_cases hany : m.any (fun p => p.1 = k)
  · rw [if_pos hany]
    by_cases hak : a = k
    · subst hak
      rw [find?_jsSet_hit m a v hany, if_pos rfl]
      rfl
    · rw [find?_jsSet_miss m k a v hak, if_neg hak]
  · rw [if_neg hany, List.find?_append]
    by_cases hak : a = k
    · subst hak
      have hnone : m.find? (fun p => p.1 = a) = none := by
        rw [List.find?_eq_none]
        intro p hp
        simp only [List.any_eq_true, decide_eq_true_eq] at hany
        simp only [decide_eq_true_eq]
        exact fun hpa => hany ⟨p, hp, hpa⟩
      rw [hnone, if_pos rfl]
      simp
    · have hsingle : ([(k, v)] : List (String × α)).find? (fun p => p.1 = a) = none := by
        rw [List.find?_eq_none]
        intro p hp
        rw [List.mem_singleton] at hp
        subst hp
        simpa using fun h => hak h.symm
      rw [hsingle, Option.or_none, if_neg hak]

lemma jsGet_indexBy_go (users : List TwitterUser) :
    ∀ (acc : List (String × TwitterUser)) (id : String),
      jsGet (users.foldl (fun acc u => jsSet acc u.id_str u) acc) id
        = (users.reverse.find? (fun u => u.id_str == id)).or (jsGet acc id) := by
  induction users with
  | nil =>
    intro acc id
    simp
  | cons u us ih =>
    intro acc id
    rw [List.foldl_cons, ih, List.reverse_cons, List.find?_append, Option.or_assoc,
      jsGet_jsSet]
    congr 1
    by_cases h : id = u.id_str
    · rw [if_pos h, List.find?_cons_of_pos _ (by simp [h]), Option.or_some]
    · rw [if_neg h, List.find?_cons_of_neg _ (by simpa using fun hh => h hh.symm),
        List.find?_nil, Option.none_or]

lemma keys_nodup_indexBy_go (users : List TwitterUser) :
    ∀ acc : List (String × TwitterUser), (acc.map Prod.fst).Nodup →
      ((users.foldl (fun acc u => jsSet acc u.id_str u) acc).map Prod.fst).Nodup := by
  induction users with
  | nil => exact fun acc h => h
  | cons u us ih => exact fun acc h => ih _ (keys_nodup_jsSet _ _ _ h)

lemma mem_keys_indexBy_go (users : List TwitterUser) :
    ∀ (acc : List (String × TwitterUser)) (id : String),
      id ∈ (users.foldl (fun acc u => jsSet acc u.id_str u) acc).map Prod.fst ↔
        id ∈ acc.map Prod.fst ∨ id ∈ users.map TwitterUser.id_str := by
  induction users with
  | nil => simp
  | cons u us ih =>
    intro acc id
    rw [List.foldl_cons, ih, mem_keys_jsSet]
    simp only [List.map_cons, List.mem_cons]
    tauto

/-- C1: a mention whose sender is younger than 7 days and has fewer than 15
followers, when the reload returns both policy flags enabled, enqueues
exactly one block candidate, with cause `NEW_ACCOUNT` (the age check takes
priority); and every invocation of the decision engine enqueues at most one
candidate. -/
theorem checkReplyAndBlock_newAccountPriority_and_atMostOne :
    (∀ (now created : Rat) (recipientBtUser : BtUser) (m : TwitterUser) (user : BtUser),
      m.created_at = some created →
      m.id_str ≠ recipientBtUser.uid →
      (now - created) / 86400 / 1000 < MIN_AGE →
      m.followers_count < MIN_FOLLOWERS →
      user.block_new_accounts = true →
      user.block_low_followers = true →
      (checkReplyAndBlock now recipientBtUser (some m) (some user)).enqueued
        = [(m.id_str, Cause.NEW_ACCOUNT)]) ∧
    (∀ (now : Rat) (recipientBtUser : BtUser) (mentioningUser : Option TwitterUser)
        (reloadResult : Option BtUser),
      (checkReplyAndBlock now recipientBtUser mentioningUser reloadResult).enqueued.length ≤ 1) := by
  constructor
  · intro now created r m user hc hne hage hfol hbn _
    simp only [checkReplyAndBlock, hc, if_neg hne]
    rw [if_pos (Or.inl hage), if_pos ⟨hage, hbn⟩]
  · intro now r mu rr
    unfold checkReplyAndBlock
    repeat' split
    all_goals simp

/-- Witness for C1 at a concrete input: sender aged 3 days with 5
followers, both flags enabled after reload. -/
theorem checkReplyAndBlock_newAccountPriority_witness :
    ((259200000 : Rat) - 0) / 86400 / 1000 < MIN_AGE ∧
    ((5 : Int) < MIN_FOLLOWERS) ∧
    ("2" : String) ≠ "1" ∧
    (checkReplyAndBlock 259200000 ⟨"1", false, false, none⟩
      (some ⟨"2", "sn", some 0, 5⟩) (some ⟨"1", true, true, none⟩)).enqueued
      = [("2", Cause.NEW_ACCOUNT)] :=
  ⟨by norm_num [MIN_AGE], by norm_num [MIN_FOLLOWERS], by decide,
    checkReplyAndBlock_newAccountPriority_and_atMostOne.1 259200000 0
      ⟨"1", false, false, none⟩ ⟨"2", "sn", some 0, 5⟩ ⟨"1", true, true, none⟩
      rfl (by decide) (by norm_num [MIN_AGE]) (by norm_num [MIN_FOLLOWERS]) rfl rfl⟩

/-- C9: the decision engine skips — no reload, no candidate — when the
mentioning actor is absent, lacks a creation timestamp, or is the recipient
itself (`src/stream.js` lines 263-267). -/
theorem checkReplyAndBlock_skip (now : Rat) (recipientBtUser : BtUser)
    (mentioningUser : Option TwitterUser) (reloadResult : Option BtUser)
    (h : mentioningUser = none ∨
      ∃ m, mentioningUser = some m ∧
        (m.created_at = none ∨ m.id_str = recipientBtUser.uid)) :
    checkReplyAndBlock now recipientBtUser mentioningUser reloadResult = ⟨false, []⟩ := by
  rcases h with h | ⟨m, rfl, h | h⟩
  · subst h; rfl
  · simp only [checkReplyAndBlock, h]
  · simp only [checkReplyAndBlock]
    cases hc : m.created_at with
    | none => rfl
    | some created => simp [h]

/-- Witness for C9 at a concrete input: self-mention. -/
theorem checkReplyAndBlock_skip_witness :
    ((some ⟨"2", "sn", some 0, 5⟩ : Option TwitterUser) = none ∨
      ∃ m, (some ⟨"2", "sn", some 0, 5⟩ : Option TwitterUser) = some m ∧
        (m.created_at = none ∨ m.id_str = ("2" : String))) ∧
    checkReplyAndBlock 259200000 ⟨"2", true, true, none⟩
      (some ⟨"2", "sn", some 0, 5⟩) (some ⟨"2", true, true, none⟩) = ⟨false, []⟩ :=
  ⟨Or.inr ⟨⟨"2", "sn", some 0, 5⟩, rfl, Or.inr rfl⟩,
    checkReplyAndBlock_skip 259200000 ⟨"2", true, true, none⟩ _ _
      (Or.inr ⟨⟨"2", "sn", some 0, 5⟩, rfl, Or.inr rfl⟩)⟩

/-- C7: when at least one block threshold is met but the policy reload
fails (the `.success` continuation of `reload()` never fires), no block
candidate is enqueued for the mention. -/
theorem checkReplyAndBlock_reloadFailure (now created : Rat) (recipientBtUser : BtUser)
    (m : TwitterUser)
    (hc : m.created_at = some created)
    (hthr : (now - created) / 86400 / 1000 < MIN_AGE ∨ m.followers_count < MIN_FOLLOWERS) :
    (checkReplyAndBlock now recipientBtUser (some m) none).enqueued = [] := by
  simp only [checkReplyAndBlock, hc]
  repeat' split
  all_goals rfl

/-- Witness for C7 at a concrete input: follower threshold met, reload fails. -/
theorem checkReplyAndBlock_reloadFailure_witness :
    (((259200000 : Rat) - 0) / 86400 / 1000 < MIN_AGE ∨ (5 : Int) < MIN_FOLLOWERS) ∧
    (checkReplyAndBlock 259200000 ⟨"1", true, true, none⟩
      (some ⟨"2", "sn", some 0, 5⟩) none).enqueued = [] :=
  ⟨Or.inr (by norm_num [MIN_FOLLOWERS]),
    checkReplyAndBlock_reloadFailure 259200000 0 ⟨"1", true, true, none⟩
      ⟨"2", "sn", some 0, 5⟩ rfl (Or.inr (by norm_num [MIN_FOLLOWERS]))⟩

/-- C6: a payload that is a reshare (its `retweeted_status` field is
truthy) is never routed to the decision engine, so no block candidate is
produced from it — regardless of its text, attached author, or any other
field. -/
theorem dataCallback_reshare_noMention (d : StreamData)
    (hrt : d.retweeted_status = true) :
    (∀ u : TwitterUser, Effect.evaluateMention u ∉ dataCallback (some d)) ∧
    (∀ (now : Rat) (recipientBtUser : BtUser) (reloadResult : Option BtUser),
      blockCandidatesOfPayload now recipientBtUser (some d) reloadResult = []) := by
  have hmem : ∀ u : TwitterUser, Effect.evaluateMention u ∉ dataCallback (some d) := by
    intro u
    unfold dataCallback
    repeat' split
    all_goals simp_all
  refine ⟨hmem, ?_⟩
  intro now r rr
  unfold blockCandidatesOfPayload
  rw [List.flatMap_eq_nil_iff]
  intro e he
  match e with
  | Effect.verifyCredentials => rfl
  | Effect.storeUser t => rfl
  | Effect.notifyBlockDebouncer => rfl
  | Effect.evaluateMention u => exact absurd he (hmem u)

/-- Witness for C6 at a concrete input: a retweet of a mention, with text
and author attached. -/
theorem dataCallback_reshare_noMention_witness :
    (StreamData.mk none none none none (some "@foo hi") true
        (some ⟨"3", "b", some 0, 5⟩)).retweeted_status = true ∧
    (∀ u : TwitterUser,
      Effect.evaluateMention u ∉
        dataCallback (some (StreamData.mk none none none none (some "@foo hi") true
          (some ⟨"3", "b", some 0, 5⟩)))) ∧
    blockCandidatesOfPayload 259200000 ⟨"1", true, true, none⟩
      (some (StreamData.mk none none none none (some "@foo hi") true
        (some ⟨"3", "b", some 0, 5⟩)))
      (some ⟨"1", true, true, none⟩) = [] :=
  ⟨rfl,
    (dataCallback_reshare_noMention
      (StreamData.mk none none none none (some "@foo hi") true
        (some ⟨"3", "b", some 0, 5⟩)) rfl).1,
    (dataCallback_reshare_noMention
      (StreamData.mk none none none none (some "@foo hi") true
        (some ⟨"3", "b", some 0, 5⟩)) rfl).2 259200000 ⟨"1", true, true, none⟩
      (some ⟨"1", true, true, none⟩)⟩

/-- C10: on the event route of the classifier (no disconnect, no warning,
truthy event), an attached target actor is forwarded to the external user
cache whatever the event type is, while the reconciliation debouncer is
notified exactly for `block` and `unblock` events. -/
theorem dataCallback_event_storesTarget (d : StreamData) (t : TwitterUser)
    (hd : d.disconnect = none) (hw : d.warning = none)
    (he : strTruthy d.event = true) (ht : d.target = some t) :
    Effect.storeUser t ∈ dataCallback (some d) ∧
    (Effect.notifyBlockDebouncer ∈ dataCallback (some d) ↔
      (d.event = some "unblock" ∨ d.event = some "block")) := by
  simp only [dataCallback, hd, hw, he, ht, if_true]
  constructor
  · simp
  · constructor
    · intro hmem
      by_contra hev
      rw [if_neg hev] at hmem
      simp at hmem
    · intro hev
      rw [if_pos hev]
      simp

/-- Witness for C10 at a concrete input: a `favorite` event with a target
actor — the target is still cached, and the debouncer is not notified. -/
theorem dataCallback_event_storesTarget_witness :
    strTruthy (some "favorite") = true ∧
    (Effect.storeUser ⟨"4", "c", some 0, 20⟩ ∈
      dataCallback (some (StreamData.mk none none (some "favorite")
        (some ⟨"4", "c", some 0, 20⟩) none false none))) ∧
    ((Effect.notifyBlockDebouncer ∈
      dataCallback (some (StreamData.mk none none (some "favorite")
        (some ⟨"4", "c", some 0, 20⟩) none false none))) ↔
      ((some "favorite" : Option String) = some "unblock" ∨
        (some "favorite" : Option String) = some "block")) :=
  ⟨rfl,
    (dataCallback_event_storesTarget
      (StreamData.mk none none (some "favorite") (some ⟨"4", "c", some 0, 20⟩) none false none)
      ⟨"4", "c", some 0, 20⟩ rfl rfl rfl rfl).1,
    (dataCallback_event_storesTarget
      (StreamData.mk none none (some "favorite") (some ⟨"4", "c", some 0, 20⟩) none false none)
      ⟨"4", "c", some 0, 20⟩ rfl rfl rfl rfl).2⟩

/-- C2: at every reachable state, under any interleaving of stream
openings, terminations, cooldown firings and debounce activity, each
account id has at most one entry in the `streams` registry and at most one
entry in the `updateBlocksTimers` registry. -/
theorem registry_atMostOne_perAccount (s : SysState) (h : Reachable s) :
    (s.streams.map Prod.fst).Nodup ∧ (s.timers.map Prod.fst).Nodup := by
  induction h with
  | init => exact ⟨by simp [initialState], by simp [initialState]⟩
  | step _ hs ih =>
    cases hs with
    | startStream uid sid => exact ⟨keys_nodup_jsSet _ _ _ ih.1, ih.2⟩
    | endStream uid => exact ⟨keys_nodup_jsDelete _ _ ih.1, ih.2⟩
    | cooldownFire uid captured =>
      refine ⟨?_, ih.2⟩
      unfold cooldownRemoval
      split
      · exact keys_nodup_jsDelete _ _ ih.1
      · exact ih.1
    | blockNotify uid tid => exact ⟨ih.1, keys_nodup_jsSet _ _ _ ih.2⟩
    | debounceFire uid => exact ⟨ih.1, keys_nodup_jsDelete _ _ ih.2⟩

/-- Witness for C2 at a concrete reachable state: the initial state after
one stream opening and one debounce notification. -/
theorem registry_atMostOne_perAccount_witness :
    ((SysState.mk (jsSet [("dummy", 0)] "u1" 1) (jsSet [] "u1" 7)).streams.map
      Prod.fst).Nodup ∧
    ((SysState.mk (jsSet [("dummy", 0)] "u1" 1) (jsSet [] "u1" 7)).timers.map
      Prod.fst).Nodup :=
  registry_atMostOne_perAccount _
    (Reachable.step
      (Reachable.step Reachable.init (Step.startStream initialState "u1" 1))
      (Step.blockNotify ⟨jsSet [("dummy", 0)] "u1" 1, []⟩ "u1" 7))

/-- C3 counterexample: two past mentions by the same sender id, whose user
records differ.  The record handed to the decision engine is the second
(last) occurrence, not the first occurrence that the claim names. -/
theorem checkPastMentions_firstOccurrence_cex :
    checkPastMentions [⟨⟨"7", "a", some 0, 100⟩⟩, ⟨⟨"7", "b", some 0, 5⟩⟩]
      = [("7", ⟨"7", "b", some 0, 5⟩)] ∧
    ([⟨"7", "a", some 0, 100⟩, ⟨"7", "b", some 0, 5⟩] : List TwitterUser).find?
      (fun u => u.id_str == "7") = some ⟨"7", "a", some 0, 100⟩ ∧
    (⟨"7", "b", some 0, 5⟩ : TwitterUser) ≠ ⟨"7", "a", some 0, 100⟩ :=
  ⟨rfl, rfl, by decide⟩

/-- C3 (amended): each distinct sender id occurring in the catch-up result
list is handed to the decision engine exactly once, and the record handed
over is the LAST occurrence of that sender id in the result list (lodash
`_.indexBy` lets later elements overwrite earlier ones). -/
theorem checkPastMentions_dedup_lastOccurrence (mentions : List Status) :
    ((checkPastMentions mentions).map Prod.fst).Nodup ∧
    (∀ id : String, id ∈ (checkPastMentions mentions).map Prod.fst ↔
      id ∈ (mentions.map Status.user).map TwitterUser.id_str) ∧
    (∀ id : String, jsGet (checkPastMentions mentions) id
      = (mentions.map Status.user).reverse.find? (fun u => u.id_str == id)) := by
  refine ⟨?_, ?_, ?_⟩
  · exact keys_nodup_indexBy_go (mentions.map Status.user) [] (by simp)
  · intro id
    unfold checkPastMentions indexBy
    rw [mem_keys_indexBy_go]
    simp
  · intro id
    unfold checkPastMentions indexBy
    rw [jsGet_indexBy_go]
    simp [jsGet]

/-- C4: a non-420 termination removes the account's registry entry
immediately (making it eligible for re-sampling at once); a 420
termination leaves the entry and schedules its removal after the 15-minute
cooldown, capturing the current session; at fire time the deferred
removal deletes the entry only if the registry still holds the captured
session, and otherwise leaves the registry unchanged. -/
theorem endCallback_cooldown (streams : List (String × Nat)) (uid : String)
    (statusCode : Nat) (captured : Option Nat) :
    (statusCode ≠ 420 →
      (endCallback streams uid statusCode).streams = jsDelete streams uid ∧
      (endCallback streams uid statusCode).scheduled = [] ∧
      jsGet (endCallback streams uid statusCode).streams uid = none) ∧
    (statusCode = 420 →
      (endCallback streams uid statusCode).streams = streams ∧
      (endCallback streams uid statusCode).scheduled
        = [(uid, jsGet streams uid, RATE_LIMIT_COOLDOWN_MS)] ∧
      RATE_LIMIT_COOLDOWN_MS = 15 * 60 * 1000) ∧
    (jsGet streams uid = captured →
      cooldownRemoval streams uid captured = jsDelete streams uid) ∧
    (jsGet streams uid ≠ captured →
      cooldownRemoval streams uid captured = streams) := by
  refine ⟨?_, ?_, ?_, ?_⟩
  · intro h
    unfold endCallback
    rw [if_neg h]
    exact ⟨rfl, rfl, jsGet_jsDelete_self _ _⟩
  · intro h
    unfold endCallback
    rw [if_pos h]
    exact ⟨rfl, rfl, rfl⟩
  · intro h
    unfold cooldownRemoval
    rw [if_pos h]
  · intro h
    unfold cooldownRemoval
    rw [if_neg h]

/-- Witness for C4 at concrete inputs: a 404 termination removes the entry
at once; a 420 termination schedules the cooldown removal; the deferred
removal deletes when the captured session matches and is a no-op when it
does not. -/
theorem endCallback_cooldown_witness :
    ((404 : Nat) ≠ 420 ∧
      (endCallback [("u", 5)] "u" 404).streams = jsDelete [("u", 5)] "u" ∧
      jsGet (endCallback [("u", 5)] "u" 404).streams "u" = none) ∧
    ((420 : Nat) = 420 ∧
      (endCallback [("u", 5)] "u" 420).scheduled
        = [("u", jsGet [("u", 5)] "u", RATE_LIMIT_COOLDOWN_MS)]) ∧
    (jsGet [("u", 5)] "u" = some 5 ∧
      cooldownRemoval [("u", 5)] "u" (some 5) = jsDelete [("u", 5)] "u") ∧
    (jsGet [("u", 5)] "u" ≠ some 6 ∧
      cooldownRemoval [("u", 5)] "u" (some 6) = [("u", 5)]) :=
  ⟨⟨by decide, ((endCallback_cooldown [("u", 5)] "u" 404 (some 5)).1 (by decide)).1,
      ((endCallback_cooldown [("u", 5)] "u" 404 (some 5)).1 (by decide)).2.2⟩,
    ⟨rfl, ((endCallback_cooldown [("u", 5)] "u" 420 (some 5)).2.1 rfl).2.1⟩,
    ⟨by decide, (endCallback_cooldown [("u", 5)] "u" 404 (some 5)).2.2.1 (by decide)⟩,
    ⟨by decide, (endCallback_cooldown [("u", 5)] "u" 404 (some 6)).2.2.2 (by decide)⟩⟩

/-- Auxiliary induction for C5: while a pending timer's deadline is still
ahead of every later notification (gaps below the quiet window), no timer
fires mid-stream, and the one surviving timer fires at
`last notification + 2000`. -/
lemma debounceGo_chain (rest : List Nat) :
    ∀ t : Nat, List.Chain' (fun a b => a ≤ b ∧ b < a + DEBOUNCE_MS) (t :: rest) →
      debounceGo rest (some (t + DEBOUNCE_MS))
        = [(t :: rest).getLast (List.cons_ne_nil t rest) + DEBOUNCE_MS] := by
  induction rest with
  | nil =>
    intro t _
    rfl
  | cons t2 rest2 ih =>
    intro t hchain
    obtain ⟨⟨h1, h2⟩, hchain2⟩ := List.chain'_cons.mp hchain
    unfold debounceGo
    rw [if_neg (by omega)]
    rw [ih t2 hchain2]
    rw [List.getLast_cons (List.cons_ne_nil t2 rest2)]

/-- C5: a nonempty burst of block/unblock notifications for one account in
which consecutive notifications are separated by less than the 2-second
quiet window produces exactly one `remoteUpdateBlocks` call, fired exactly
at (hence at least) the quiet window after the last notification. -/
theorem handleBlockEvent_debounce (t : Nat) (rest : List Nat)
    (hchain : List.Chain' (fun a b => a ≤ b ∧ b < a + DEBOUNCE_MS) (t :: rest)) :
    (debounceRun (t :: rest)).length = 1 ∧
    debounceRun (t :: rest)
      = [(t :: rest).getLast (List.cons_ne_nil t rest) + DEBOUNCE_MS] := by
  have h : debounceRun (t :: rest)
      = [(t :: rest).getLast (List.cons_ne_nil t rest) + DEBOUNCE_MS] :=
    debounceGo_chain rest t hchain
  exact ⟨by rw [h]; rfl, h⟩

/-- Witness for C5 at a concrete input: three notifications at 0 ms,
1000 ms and 1500 ms produce the single reconciliation call at 3500 ms. -/
theorem handleBlockEvent_debounce_witness :
    List.Chain' (fun a b => a ≤ b ∧ b < a + DEBOUNCE_MS) [0, 1000, 1500] ∧
    (debounceRun [0, 1000, 1500]).length = 1 ∧
    debounceRun [0, 1000, 1500] = [3500] :=
  ⟨by norm_num [List.chain'_cons, DEBOUNCE_MS],
    (handleBlockEvent_debounce 0 [1000, 1500]
      (by norm_num [List.chain'_cons, DEBOUNCE_MS])).1,
    (handleBlockEvent_debounce 0 [1000, 1500]
      (by norm_num [List.chain'_cons, DEBOUNCE_MS])).2.trans (by decide)⟩

/-- C8: each sampler tick — fired every 1000 ms — selects at most 10
accounts, every selected account has no entry in the session registry, is
not deactivated, and has at least one auto-block policy enabled; the
selected list is exactly what is handed to `startStream`. -/
theorem startStreamsTick_selection (streams : List (String × Nat))
    (shuffledUsers : List BtUser) :
    SAMPLER_TICK_MS = 1000 ∧
    (startStreamsTick streams shuffledUsers).length ≤ SAMPLER_BATCH ∧
    ∀ u ∈ startStreamsTick streams shuffledUsers,
      u.uid ∉ streams.map Prod.fst ∧ u.deactivatedAt = none ∧
        (u.block_new_accounts = true ∨ u.block_low_followers = true) := by
  refine ⟨rfl, ?_, ?_⟩
  · unfold startStreamsTick
    rw [List.length_take]
    exact min_le_left _ _
  · intro u hu
    have hmem := List.mem_of_mem_take hu
    have hel := (List.mem_filter.mp hmem).2
    simp only [eligibleForStream, Bool.and_eq_true, decide_eq_true_eq,
      Option.isNone_iff_eq_none, Bool.or_eq_true] at hel
    exact ⟨hel.1.1, hel.1.2, hel.2⟩

/-- Witness for C8 at a concrete input: one eligible account against the
registry holding only the dummy entry. -/
theorem startStreamsTick_selection_witness :
    (startStreamsTick [("dummy", 0)] [⟨"a", true, false, none⟩]).length
      ≤ SAMPLER_BATCH ∧
    (⟨"a", true, false, none⟩ : BtUser)
      ∈ startStreamsTick [("dummy", 0)] [⟨"a", true, false, none⟩] ∧
    (("a" : String) ∉ ([("dummy", 0)] : List (String × Nat)).map Prod.fst ∧
      (none : Option Int) = none ∧ (true = true ∨ false = true)) :=
  ⟨(startStreamsTick_selection [("dummy", 0)] [⟨"a", true, false, none⟩]).2.1,
    by decide,
    (startStreamsTick_selection [("dummy", 0)] [⟨"a", true, false, none⟩]).2.2
      ⟨"a", true, false, none⟩ (by decide)⟩

end Blocktogether
